import Mathlib

/-!
Shallow embedding of the two Ansible modules of this repository:

* `plugins/modules/vmware_content_deploy_ovf_template.py`
* `plugins/modules/vmware_object_permissions_info.py`

Remote lookups and SDK calls are modelled as environment records of pure
functions (the spec, section 8, frames all testable behaviour as runs
against mocked name-to-ID resolutions).  Each run returns its terminal
outcome together with the trace of remote calls it issued.
-/

set_option autoImplicit false

namespace VmwareModules

/-- Python truthiness of an optional string value, as used by the guards
`if not self.datacenter_id:` etc.: `None` and the empty string are falsy. -/
def truthy : Option String → Bool
  | none => false
  | some s => !(s == "")

/-- Extract the string of a truthy optional value (falsy values give ""). -/
def strOf : Option String → String
  | some s => s
  | none => ""

/-- Python string formatting of a possibly-None value: `"%s" % None` is "None". -/
def pyNone : Option String → String
  | some s => s
  | none => "None"

/-- Module parameters of the deploy module after argument parsing
(lines 156-167 of the source).  Required string parameters are `String`;
optional ones are `Option String`.  `folder` has the declared default "vm". -/
structure DeployParams where
  template : String
  library : Option String
  name : String
  datacenter : String
  datastore : Option String
  datastore_cluster : Option String
  folder : String
  host : Option String
  resource_pool : Option String
  cluster : Option String
  storage_provisioning : String
deriving Repr, DecidableEq

/-- `LibraryItem.DeploymentTarget` (source lines 248-251). -/
structure DeploymentTarget where
  resource_pool_id : String
  folder_id : String
deriving Repr, DecidableEq

/-- `LibraryItem.ResourcePoolDeploymentSpec` (source lines 257-268).  The
`annotation` keyword of the source is spelled `annot` here.  The fields the
source always passes as `None` are kept as `Option String` fields. -/
structure ResourcePoolDeploymentSpec where
  name : String
  annot : Option String
  accept_all_eula : Bool
  network_mappings : Option String
  storage_mappings : Option String
  storage_provisioning : String
  storage_profile_id : Option String
  locale : Option String
  flags : Option String
  additional_parameters : Option String
  default_datastore_id : String
deriving Repr, DecidableEq

/-- One remote call issued by a module run, recorded in the trace. -/
inductive Call where
  | getVmCall (name : String)
  | datacenterLookup (name : String)
  | datastoreLookup (dc ds : String)
  | datastoreClusterLookup (name : String)
  | recommendedDatastore (dsc : String)
  | libraryItemInLibraryLookup (template library : String)
  | libraryItemLookup (template : String)
  | folderLookup (dc folder : String)
  | hostLookup (dc host : String)
  | resourcePoolLookup (dc rp : String) (cluster host : Option String)
  | clusterLookup (dc cluster : String)
  | clusterGet (cluster_id : String)
  | ovfFilterCall (lib_item : String) (target : DeploymentTarget)
  | deployCall (lib_item : String) (target : DeploymentTarget) (spec : ResourcePoolDeploymentSpec)
  | findObjCall (vimtype : String) (name : Option String)
  | retrievePermissionsCall (obj : String) (inherited : Bool)
deriving Repr, DecidableEq

/-- Result of the `vcenter.ovf.LibraryItem.deploy` SDK call: it either raises
a vapi `Error`, raises some other exception, or returns a result object with
a `succeeded` flag and a `resource_id` (lines 273-278 of the source). -/
inductive DeployCallResult where
  | error (msg : String)
  | exn (msg : String)
  | result (succeeded : Bool) (resource_id : String)
deriving Repr, DecidableEq

/-- Environment of remote lookups and SDK calls used by the deploy module.
`get_vm` stands for `self.pyv.get_vm()` looking up the requested VM name;
the remaining fields mirror the helper methods called by
`deploy_vm_from_ovf_template`.  Lookups return the resolved identifier or
`none`; a returned `some ""` is also treated as a failed resolution by the
truthiness guards of the source. -/
structure DeployEnv where
  get_vm : Option String
  get_datacenter_by_name : String → Option String
  get_datastore_by_name : String → String → Option String
  find_datastore_cluster_by_name : String → Option String
  get_recommended_datastore : String → Option String
  get_library_item_from_content_library_name : String → String → Option String
  get_library_item_by_name : String → Option String
  get_folder_by_name : String → String → Option String
  get_host_by_name : String → String → Option String
  get_resource_pool_by_name : String → String → Option String → Option String → Option String
  get_cluster_by_name : String → String → Option String
  cluster_get_resource_pool : String → Option String
  ovf_filter_annot : String → DeploymentTarget → Option String
  deploy : String → DeploymentTarget → ResourcePoolDeploymentSpec → DeployCallResult

/-- The member variables `self.datacenter_id`, ..., `self.resourcepool_id`
initialised to `None` in the constructor (source lines 148-154). -/
structure Ids where
  datacenter_id : Option String := none
  datastore_id : Option String := none
  library_item_id : Option String := none
  folder_id : Option String := none
  host_id : Option String := none
  cluster_id : Option String := none
  resourcepool_id : Option String := none
deriving Repr, DecidableEq

/-- Modelled from the spec: the translation of the permission objects by
`self.to_json` (a `PyVmomi` helper that is not under `src/`).  The spec only
says the result is "translated ... into a flat success/failure report", so
the serialised form is kept opaque as a string produced by the environment. -/
def PermsJson : Type := String

/-- Terminal outcome of a module run: `fail_json`, the deploy module
`exit_json` forms (normal and check mode), or the permissions module
`exit_json`. -/
inductive Outcome where
  | failJson (msg : String)
  | exitDeploy (changed : Bool) (msg : String) (vm_id : String)
  | exitCheckMode (vm_name : String)
  | exitPermissions (permissions : String)
deriving Repr, DecidableEq

/-- True exactly on `fail_json` terminations. -/
def isFailureOutcome : Outcome → Bool
  | .failJson _ => true
  | _ => false

/-- Outcome of one resolver block of `deploy_vm_from_ovf_template`: the
member-variable assignments it performs, whether it called
`self.module.fail_json` (and with which message), and the remote calls it
issued.  No block reads an identifier resolved by an earlier block, so the
assignments compose as functions on `Ids`. -/
structure StepOut where
  upd : Ids → Ids
  failed : Option String
  calls : List Call

/-- Sequencing of two resolver blocks: `fail_json` is terminal, so the
second block only runs when the first did not fail. -/
def seqStep (a b : StepOut) : StepOut :=
  match a.failed with
  | some _ => a
  | none => ⟨fun ids => b.upd (a.upd ids), b.failed, a.calls ++ b.calls⟩

/-- Source lines 186-189: find the datacenter by name and fail if the
lookup is falsy. -/
def stepDatacenter (env : DeployEnv) (p : DeployParams) : StepOut :=
  let dc := env.get_datacenter_by_name p.datacenter
  if truthy dc then
    ⟨fun ids => { ids with datacenter_id := dc }, none, [.datacenterLookup p.datacenter]⟩
  else
    ⟨fun ids => { ids with datacenter_id := dc },
      some ("Failed to find the datacenter " ++ p.datacenter), [.datacenterLookup p.datacenter]⟩

/-- Source lines 199-209: the datastore-cluster fallback and the final
`if not self.datastore_id` check, entered with `self.datastore_id` falsy. -/
def stepDatastoreCluster (env : DeployEnv) (p : DeployParams) : StepOut :=
  match p.datastore_cluster with
  | some dsc =>
    if dsc == "" then
      ⟨fun ids => ids, some ("Failed to find the datastore using either datastore or datastore cluster"), []⟩
    else
      match env.find_datastore_cluster_by_name dsc with
      | some dscObj =>
        let ds_id := env.get_recommended_datastore dscObj
        if truthy ds_id then
          ⟨fun ids => { ids with datastore_id := ds_id }, none,
            [.datastoreClusterLookup dsc, .recommendedDatastore dscObj]⟩
        else
          ⟨fun ids => { ids with datastore_id := ds_id },
            some ("Failed to find the datastore using either datastore or datastore cluster"),
            [.datastoreClusterLookup dsc, .recommendedDatastore dscObj]⟩
      | none =>
        ⟨fun ids => ids, some ("Failed to find the datastore cluster " ++ dsc),
          [.datastoreClusterLookup dsc]⟩
  | none =>
    ⟨fun ids => ids, some ("Failed to find the datastore using either datastore or datastore cluster"), []⟩

/-- Source lines 191-209: find the datastore by name when the `datastore`
parameter is truthy, otherwise fall back to the datastore cluster. -/
def stepDatastore (env : DeployEnv) (p : DeployParams) : StepOut :=
  match p.datastore with
  | some ds =>
    if ds == "" then stepDatastoreCluster env p
    else
      let ds_id := env.get_datastore_by_name p.datacenter ds
      if truthy ds_id then
        ⟨fun ids => { ids with datastore_id := ds_id }, none, [.datastoreLookup p.datacenter ds]⟩
      else
        ⟨fun ids => { ids with datastore_id := ds_id },
          some ("Failed to find the datastore " ++ ds), [.datastoreLookup p.datacenter ds]⟩
  | none => stepDatastoreCluster env p

/-- Source lines 217-220: find the library item by template name alone. -/
def stepLibraryItemNoLibrary (env : DeployEnv) (p : DeployParams) : StepOut :=
  let li := env.get_library_item_by_name p.template
  if truthy li then
    ⟨fun ids => { ids with library_item_id := li }, none, [.libraryItemLookup p.template]⟩
  else
    ⟨fun ids => { ids with library_item_id := li },
      some ("Failed to find the library Item " ++ p.template), [.libraryItemLookup p.template]⟩

/-- Source lines 211-220: find the library item, within the named content
library when the `library` parameter is truthy. -/
def stepLibraryItem (env : DeployEnv) (p : DeployParams) : StepOut :=
  match p.library with
  | some lib =>
    if lib == "" then stepLibraryItemNoLibrary env p
    else
      let li := env.get_library_item_from_content_library_name p.template lib
      if truthy li then
        ⟨fun ids => { ids with library_item_id := li }, none,
          [.libraryItemInLibraryLookup p.template lib]⟩
      else
        ⟨fun ids => { ids with library_item_id := li },
          some ("Failed to find the library Item " ++ p.template ++ " in content library " ++ lib),
          [.libraryItemInLibraryLookup p.template lib]⟩
  | none => stepLibraryItemNoLibrary env p

/-- Source lines 222-225: find the folder by name. -/
def stepFolder (env : DeployEnv) (p : DeployParams) : StepOut :=
  let f := env.get_folder_by_name p.datacenter p.folder
  if truthy f then
    ⟨fun ids => { ids with folder_id := f }, none, [.folderLookup p.datacenter p.folder]⟩
  else
    ⟨fun ids => { ids with folder_id := f },
      some ("Failed to find the folder " ++ p.folder), [.folderLookup p.datacenter p.folder]⟩

/-- Source lines 227-231: verify the host exists when specified. -/
def stepHost (env : DeployEnv) (p : DeployParams) : StepOut :=
  match p.host with
  | some h =>
    if h == "" then ⟨fun ids => ids, none, []⟩
    else
      let hid := env.get_host_by_name p.datacenter h
      if truthy hid then
        ⟨fun ids => { ids with host_id := hid }, none, [.hostLookup p.datacenter h]⟩
      else
        ⟨fun ids => { ids with host_id := hid },
          some ("Failed to find the Host " ++ h), [.hostLookup p.datacenter h]⟩
  | none => ⟨fun ids => ids, none, []⟩

/-- Source lines 238-246: resolve the resource pool through the cluster,
and the final `if not self.resourcepool_id` check, entered with the
`resource_pool` parameter falsy. -/
def stepResourcePoolFromCluster (env : DeployEnv) (p : DeployParams) : StepOut :=
  match p.cluster with
  | some c =>
    if c == "" then
      ⟨fun ids => ids, some ("Failed to find a resource pool either by name or cluster"), []⟩
    else
      let cid := env.get_cluster_by_name p.datacenter c
      if truthy cid then
        let rpid := env.cluster_get_resource_pool (strOf cid)
        if truthy rpid then
          ⟨fun ids => { ids with cluster_id := cid, resourcepool_id := rpid }, none,
            [.clusterLookup p.datacenter c, .clusterGet (strOf cid)]⟩
        else
          ⟨fun ids => { ids with cluster_id := cid, resourcepool_id := rpid },
            some ("Failed to find a resource pool either by name or cluster"),
            [.clusterLookup p.datacenter c, .clusterGet (strOf cid)]⟩
      else
        ⟨fun ids => { ids with cluster_id := cid },
          some ("Failed to find the Cluster " ++ c), [.clusterLookup p.datacenter c]⟩
  | none =>
    ⟨fun ids => ids, some ("Failed to find a resource pool either by name or cluster"), []⟩

/-- Source lines 233-246: resolve the resource pool by name when the
`resource_pool` parameter is truthy, otherwise via the cluster. -/
def stepResourcePool (env : DeployEnv) (p : DeployParams) : StepOut :=
  match p.resource_pool with
  | some rp =>
    if rp == "" then stepResourcePoolFromCluster env p
    else
      let rpid := env.get_resource_pool_by_name p.datacenter rp p.cluster p.host
      if truthy rpid then
        ⟨fun ids => { ids with resourcepool_id := rpid }, none,
          [.resourcePoolLookup p.datacenter rp p.cluster p.host]⟩
      else
        ⟨fun ids => { ids with resourcepool_id := rpid },
          some ("Failed to find the resource_pool " ++ rp),
          [.resourcePoolLookup p.datacenter rp p.cluster p.host]⟩
  | none => stepResourcePoolFromCluster env p

/-- The straight-line resolver chain of `deploy_vm_from_ovf_template`
(source lines 185-246): datacenter, datastore or datastore cluster,
library item, folder, host, resource pool or cluster, with `fail_json`
terminating the sequence at the first failing block. -/
def resolveAll (env : DeployEnv) (p : DeployParams) : StepOut :=
  seqStep (stepDatacenter env p)
    (seqStep (stepDatastore env p)
      (seqStep (stepLibraryItem env p)
        (seqStep (stepFolder env p)
          (seqStep (stepHost env p) (stepResourcePool env p)))))

/-- Modelled from the spec: `VmwareRestClient.get_error_message` is a helper
of this repository that is not under `src/`.  The spec (section 7) says a
remote-call failure is "propagated verbatim from the vendor SDK/API", so the
vendor error is modelled as its message string and this helper returns it
unchanged. -/
def get_error_message (errorMsg : String) : String := errorMsg

/-- The `LibraryItem.DeploymentTarget` built at source lines 248-251 from
the resolved resource pool and folder. -/
def deployTargetOf (ids : Ids) : DeploymentTarget :=
  { resource_pool_id := strOf ids.resourcepool_id, folder_id := strOf ids.folder_id }

/-- The `LibraryItem.ResourcePoolDeploymentSpec` built at source lines
253-268 from the request parameters, the resolved datastore, and the
summary returned by the `filter` call. -/
def deploySpecOf (env : DeployEnv) (p : DeployParams) (ids : Ids) : ResourcePoolDeploymentSpec :=
  { name := p.name
    annot := env.ovf_filter_annot (strOf ids.library_item_id) (deployTargetOf ids)
    accept_all_eula := true
    network_mappings := none
    storage_mappings := none
    storage_provisioning := p.storage_provisioning
    storage_profile_id := none
    locale := none
    flags := none
    additional_parameters := none
    default_datastore_id := strOf ids.datastore_id }

/-- Source lines 248-289: build the deployment target and spec, issue the
`filter` and `deploy` calls, and map the deploy result to the terminal
outcome. -/
def deployStage (env : DeployEnv) (p : DeployParams) (ids : Ids) : Outcome × List Call :=
  let target := deployTargetOf ids
  let spec := deploySpecOf env p ids
  let calls : List Call :=
    [.ovfFilterCall (strOf ids.library_item_id) target,
     .deployCall (strOf ids.library_item_id) target spec]
  match env.deploy (strOf ids.library_item_id) target spec with
  | .error m => (.failJson (get_error_message m), calls)
  | .exn m => (.failJson m, calls)
  | .result succeeded rid =>
    if succeeded then
      (.exitDeploy true ("Deployed Virtual Machine \x27" ++ p.name ++ "\x27.") rid, calls)
    else
      (.exitDeploy false ("Virtual Machine deployment failed") "", calls)

/-- The method `deploy_vm_from_ovf_template` (source lines 185-289):
the resolver chain followed by the deploy stage. -/
def deploy_vm_from_ovf_template (env : DeployEnv) (p : DeployParams) :
    Outcome × Ids × List Call :=
  let r := resolveAll env p
  let ids := r.upd {}
  match r.failed with
  | some m => (.failJson m, ids, r.calls)
  | none =>
    let (o, cs) := deployStage env p ids
    (o, ids, r.calls ++ cs)

/-- Source line 168-169: the constructor lower-cases spelling fixup of the
`storage_provisioning` parameter. -/
def canonicalizeStorageProvisioning (s : String) : String :=
  if s == "eagerzeroedthick" then "eagerZeroedThick" else s

/-- The canonicalized copy of the parameters built by the constructor. -/
def canonParams (p : DeployParams) : DeployParams :=
  { p with storage_provisioning := canonicalizeStorageProvisioning p.storage_provisioning }

/-- One full run of the deploy module (`main`, source lines 292-377, plus
the constructor, lines 140-183): canonicalize `storage_provisioning`, exit
early when a VM of the requested name exists, exit in check mode, otherwise
run `deploy_vm_from_ovf_template`.  Returns the terminal outcome, the final
member identifiers, and the trace of remote calls. -/
def runDeployModule (env : DeployEnv) (p0 : DeployParams) (check_mode : Bool) :
    Outcome × Ids × List Call :=
  let p := canonParams p0
  match env.get_vm with
  | some vmMoid =>
    (.exitDeploy false ("Virtual Machine \x27" ++ p.name ++ "\x27 already Exists.") vmMoid,
      {}, [.getVmCall p.name])
  | none =>
    if check_mode then (.exitCheckMode p.name, {}, [.getVmCall p.name])
    else
      let (o, ids, cs) := deploy_vm_from_ovf_template env p
      (o, ids, .getVmCall p.name :: cs)

/-- Module parameters of the permissions module after argument parsing
(source lines 184-217).  `object_type` has the declared default "Folder". -/
structure PermParams where
  principal : Option String
  group : Option String
  moid : Option String
  object_name : Option String
  object_type : String
deriving Repr, DecidableEq

/-- Environment of the permissions module: validity of an object type as a
`vim` attribute, the root folder object, the `find_obj` directory lookup,
`RetrieveEntityPermissions`, and the `to_json` translation.  Managed objects
and permission entries are modelled as opaque strings. -/
structure PermEnv where
  vim_has_type : String → Bool
  root_folder : String
  find_obj : String → Option String → Option String
  retrieve_entity_permissions : String → Bool → List String
  to_json : List String → String

/-- The warning emitted for DistributedVirtualSwitch targets
(source lines 176-181). -/
def dvsWarnMsg : String :=
  "You are applying permissions to a Distributed vSwitch. This will probably fail, since Distributed vSwitches inherits permissions from the datacenter or a folder level. Define permissions on the datacenter or the folder containing the switch."

/-- Result of `get_object`: either a `fail_json`, or the located object
together with the calls issued and the warnings emitted. -/
inductive ObjResult where
  | failure (msg : String) (calls : List Call)
  | found (obj : String) (calls : List Call) (warnings : List String)
deriving Repr, DecidableEq

/-- The method `VMwareObjectPermissionsInfo.get_object`
(source lines 158-181). -/
def get_object (env : PermEnv) (p : PermParams) : ObjResult :=
  if p.object_type == "Folder" && p.object_name == some ("rootFolder") then
    .found env.root_folder [] []
  else if !(env.vim_has_type p.object_type) then
    .failure ("Object type " ++ p.object_type ++ " is not valid.") []
  else
    match env.find_obj p.object_type p.object_name with
    | none =>
      .failure
        ("Specified object " ++ pyNone p.object_name ++ " of type " ++ p.object_type
          ++ " was not found.")
        [.findObjCall p.object_type p.object_name]
    | some obj =>
      .found obj [.findObjCall p.object_type p.object_name]
        (if p.object_type == "DistributedVirtualSwitch" then [dvsWarnMsg] else [])

/-- One full run of the permissions module
(`VMwareObjectPermissionsInfo.__init__`, source lines 136-153): locate the
object, retrieve its permissions with `inherited=False`, and exit with the
translated permissions under the key `permissions`.  Returns the terminal
outcome, the trace of remote calls, and the warnings.  The `moid`,
`principal` and `group` parameters are carried in `PermParams` but, like in
the source, are never read by object resolution or permission retrieval. -/
def runPermModule (env : PermEnv) (p : PermParams) : Outcome × List Call × List String :=
  match get_object env p with
  | .failure m cs => (.failJson m, cs, [])
  | .found obj cs ws =>
    let perms := env.retrieve_entity_permissions obj false
    (.exitPermissions (env.to_json perms), cs ++ [.retrievePermissionsCall obj false], ws)

/-- The object located by `get_object`, when resolution succeeds. -/
def resolvedObject (env : PermEnv) (p : PermParams) : Option String :=
  match get_object env p with
  | .failure _ _ => none
  | .found obj _ _ => some obj

/-- The deploy calls in a trace. -/
def deployCallsOf (t : List Call) : List Call :=
  t.filter fun c => match c with | .deployCall _ _ _ => true | _ => false

/-- The `RetrieveEntityPermissions` calls in a trace. -/
def retrieveCallsOf (t : List Call) : List Call :=
  t.filter fun c => match c with | .retrievePermissionsCall _ _ => true | _ => false

/-- The position of a call in the resolver pipeline of the deploy module:
the VM pre-check, then the six resolver blocks in source order, then the
`filter` and `deploy` SDK calls.  Permissions-module calls are given the
final rank. -/
def callPhase : Call → Nat
  | .getVmCall _ => 0
  | .datacenterLookup _ => 1
  | .datastoreLookup _ _ => 2
  | .datastoreClusterLookup _ => 2
  | .recommendedDatastore _ => 2
  | .libraryItemInLibraryLookup _ _ => 3
  | .libraryItemLookup _ => 3
  | .folderLookup _ _ => 4
  | .hostLookup _ _ => 5
  | .resourcePoolLookup _ _ _ _ => 6
  | .clusterLookup _ _ => 6
  | .clusterGet _ => 6
  | .ovfFilterCall _ _ => 7
  | .deployCall _ _ _ => 8
  | .findObjCall _ _ => 9
  | .retrievePermissionsCall _ _ => 9

/-- One entry of the flat result document passed to `exit_json` or
`fail_json`: a boolean, a string, or the nested `vm_deploy_info` record. -/
inductive ResultValue where
  | vBool (b : Bool)
  | vStr (s : String)
  | vInfo (msg vm_id : String)
deriving Repr, DecidableEq

/-- The key-value result document of a terminal outcome, as passed to
`exit_json` or `fail_json` by the two modules. -/
def resultRecord : Outcome → List (String × ResultValue)
  | .failJson m => [("failed", .vBool true), ("msg", .vStr m)]
  | .exitDeploy c m i => [("changed", .vBool c), ("vm_deploy_info", .vInfo m i)]
  | .exitCheckMode n =>
    [("failed", .vBool false), ("changed", .vBool true), ("vm_name", .vStr n),
     ("desired_operation", .vStr ("Create VM with PowerOff State"))]
  | .exitPermissions pj => [("permissions", .vStr pj)]

/-- Follows the words of the spec (section 3), for comparison with
`resultRecord`: "one result record:
`\x7b succeeded: bool, id: string, message: string \x7d`". -/
def specFlatReport (succeeded : Bool) (id msg : String) : List (String × ResultValue) :=
  [("succeeded", .vBool succeeded), ("id", .vStr id), ("message", .vStr msg)]

/-! Concrete environments and parameters used to evaluate the theorems on
closed inputs. -/

/-- Parameters of a typical deploy request. -/
def pW : DeployParams :=
  { template := "tpl", library := none, name := "vm1", datacenter := "dc",
    datastore := some ("ds"), datastore_cluster := none, folder := "vm",
    host := none, resource_pool := some ("rp"), cluster := none,
    storage_provisioning := "thin" }

/-- An environment in which every resolution succeeds and the deploy call
returns a result with `succeeded` false. -/
def envUnsucceeded : DeployEnv :=
  { get_vm := none
    get_datacenter_by_name := fun _ => some ("dc-1")
    get_datastore_by_name := fun _ _ => some ("ds-1")
    find_datastore_cluster_by_name := fun _ => none
    get_recommended_datastore := fun _ => none
    get_library_item_from_content_library_name := fun _ _ => none
    get_library_item_by_name := fun _ => some ("li-1")
    get_folder_by_name := fun _ _ => some ("f-1")
    get_host_by_name := fun _ _ => none
    get_resource_pool_by_name := fun _ _ _ _ => some ("rp-1")
    get_cluster_by_name := fun _ _ => none
    cluster_get_resource_pool := fun _ => none
    ovf_filter_annot := fun _ _ => none
    deploy := fun _ _ _ => .result false ("") }

/-- Same environment with a deploy call that reports success. -/
def envSucceeded : DeployEnv :=
  { envUnsucceeded with deploy := fun _ _ _ => .result true ("vm-9") }

/-- Environment with a failing datacenter lookup. -/
def envDcFail : DeployEnv :=
  { envUnsucceeded with get_datacenter_by_name := fun _ => none }

/-- Environment with a failing datastore lookup. -/
def envDsFail : DeployEnv :=
  { envUnsucceeded with get_datastore_by_name := fun _ _ => none }

/-- Environment with a failing library-item lookup. -/
def envLiFail : DeployEnv :=
  { envUnsucceeded with get_library_item_by_name := fun _ => none }

/-- Environment with a failing folder lookup. -/
def envFolderFail : DeployEnv :=
  { envUnsucceeded with get_folder_by_name := fun _ _ => none }

/-- Environment with a failing resource-pool lookup. -/
def envRpFail : DeployEnv :=
  { envUnsucceeded with get_resource_pool_by_name := fun _ _ _ _ => none }

/-- Environment whose deploy call raises a vapi error. -/
def envError : DeployEnv :=
  { envUnsucceeded with deploy := fun _ _ _ => .error ("vendor failure") }

/-- Environment whose deploy call raises a generic exception. -/
def envExn : DeployEnv :=
  { envUnsucceeded with deploy := fun _ _ _ => .exn ("socket closed") }

/-- Parameters selecting a datastore cluster instead of a datastore. -/
def pDsc : DeployParams := { pW with datastore := none, datastore_cluster := some ("dsc") }

/-- Parameters naming a content library. -/
def pLib : DeployParams := { pW with library := some ("lib") }

/-- Parameters naming a host. -/
def pHost : DeployParams := { pW with host := some ("h1") }

/-- Parameters resolving the resource pool through a cluster. -/
def pCluster : DeployParams := { pW with resource_pool := none, cluster := some ("cl") }

/-- Parameters with the all-lowercase storage-provisioning spelling. -/
def pEz : DeployParams := { pW with storage_provisioning := "eagerzeroedthick" }

/-- The deployment target resolved by a run of `envSucceeded` with `pW`. -/
def targetW : DeploymentTarget := { resource_pool_id := "rp-1", folder_id := "f-1" }

/-- The deployment spec built by a run of `envSucceeded` with `pEz`. -/
def specW : ResourcePoolDeploymentSpec :=
  { name := "vm1", annot := none, accept_all_eula := true, network_mappings := none,
    storage_mappings := none, storage_provisioning := "eagerZeroedThick",
    storage_profile_id := none, locale := none, flags := none, additional_parameters := none,
    default_datastore_id := "ds-1" }

/-- The member identifiers resolved by a run of `envSucceeded` with `pW`. -/
def idsW : Ids :=
  { datacenter_id := some ("dc-1"), datastore_id := some ("ds-1"),
    library_item_id := some ("li-1"), folder_id := some ("f-1"),
    host_id := none, cluster_id := none, resourcepool_id := some ("rp-1") }

/-- Permissions-module parameters naming a folder. -/
def qW : PermParams :=
  { principal := some ("admin"), group := none, moid := none,
    object_name := some ("vmfolder"), object_type := "Folder" }

/-- Permissions environment in which the object is found. -/
def permEnvW : PermEnv :=
  { vim_has_type := fun _ => true
    root_folder := "root-1"
    find_obj := fun _ _ => some ("obj-1")
    retrieve_entity_permissions := fun o _ => [o]
    to_json := fun l => String.join l }

/-- Same permissions environment with a failing object lookup. -/
def permEnvMissing : PermEnv :=
  { permEnvW with find_obj := fun _ _ => none }

/-! Structural lemmas about the resolver chain. -/

theorem seqStep_of_fail {a b : StepOut} {m : String} (h : a.failed = some m) :
    seqStep a b = a := by
  unfold seqStep
  rw [h]

theorem seqStep_of_ok {a b : StepOut} (h : a.failed = none) :
    seqStep a b = ⟨fun ids => b.upd (a.upd ids), b.failed, a.calls ++ b.calls⟩ := by
  unfold seqStep
  rw [h]

theorem seqStep_failed_none {a b : StepOut} :
    (seqStep a b).failed = none ↔ a.failed = none ∧ b.failed = none := by
  cases h : a.failed
  · rw [seqStep_of_ok h]
    simp
  · rw [seqStep_of_fail h]
    simp [h]

theorem seqStep_mem {a b : StepOut} {c : Call} (h : c ∈ (seqStep a b).calls) :
    c ∈ a.calls ∨ c ∈ b.calls := by
  cases hf : a.failed
  · rw [seqStep_of_ok hf] at h
    exact List.mem_append.mp h
  · rw [seqStep_of_fail hf] at h
    exact Or.inl h

theorem sorted_of_const {l : List Call} {k : Nat} (h : ∀ c ∈ l, callPhase c = k) :
    List.Sorted (· ≤ ·) (l.map callPhase) := by
  induction l with
  | nil => simp
  | cons a t ih =>
    rw [List.map_cons, List.sorted_cons]
    constructor
    · intro b hb
      obtain ⟨c, hc, rfl⟩ := List.mem_map.mp hb
      rw [h a (by simp), h c (List.mem_cons_of_mem _ hc)]
    · exact ih fun c hc => h c (List.mem_cons_of_mem _ hc)

theorem seqStep_sorted {a b : StepOut} (m : Nat)
    (ha : ∀ c ∈ a.calls, callPhase c ≤ m) (hb : ∀ c ∈ b.calls, m ≤ callPhase c)
    (sa : List.Sorted (· ≤ ·) (a.calls.map callPhase))
    (sb : List.Sorted (· ≤ ·) (b.calls.map callPhase)) :
    List.Sorted (· ≤ ·) ((seqStep a b).calls.map callPhase) := by
  cases hf : a.failed
  · rw [seqStep_of_ok hf]
    show List.Sorted (· ≤ ·) ((a.calls ++ b.calls).map callPhase)
    rw [List.map_append]
    unfold List.Sorted
    rw [List.pairwise_append]
    refine ⟨sa, sb, ?_⟩
    intro x hx y hy
    obtain ⟨c, hc, rfl⟩ := List.mem_map.mp hx
    obtain ⟨d, hd, rfl⟩ := List.mem_map.mp hy
    exact le_trans (ha c hc) (hb d hd)
  · rw [seqStep_of_fail hf]
    exact sa

/-! Per-block lemmas: the calls of each resolver block sit at its own
pipeline position. -/

theorem stepDatacenter_calls {env : DeployEnv} {p : DeployParams} :
    ∀ c ∈ (stepDatacenter env p).calls, callPhase c = 1 := by
  intro c hc
  unfold stepDatacenter at hc
  dsimp only at hc
  repeat' split at hc
  all_goals simp only [List.mem_singleton, List.mem_cons, List.not_mem_nil, or_false] at hc
  all_goals first
    | (rcases hc with rfl | rfl <;> rfl)
    | (subst hc; rfl)

theorem stepDatastoreCluster_calls {env : DeployEnv} {p : DeployParams} :
    ∀ c ∈ (stepDatastoreCluster env p).calls, callPhase c = 2 := by
  intro c hc
  unfold stepDatastoreCluster at hc
  dsimp only at hc
  repeat' split at hc
  all_goals simp only [List.mem_singleton, List.mem_cons, List.not_mem_nil, or_false] at hc
  all_goals first
    | (rcases hc with rfl | rfl <;> rfl)
    | (subst hc; rfl)

theorem stepDatastore_calls {env : DeployEnv} {p : DeployParams} :
    ∀ c ∈ (stepDatastore env p).calls, callPhase c = 2 := by
  intro c hc
  unfold stepDatastore at hc
  dsimp only at hc
  repeat' split at hc
  all_goals first
    | exact stepDatastoreCluster_calls c hc
    | (simp only [List.mem_singleton, List.mem_cons, List.not_mem_nil, or_false] at hc
       first
       | (rcases hc with rfl | rfl <;> rfl)
       | (subst hc; rfl))

theorem stepLibraryItemNoLibrary_calls {env : DeployEnv} {p : DeployParams} :
    ∀ c ∈ (stepLibraryItemNoLibrary env p).calls, callPhase c = 3 := by
  intro c hc
  unfold stepLibraryItemNoLibrary at hc
  dsimp only at hc
  repeat' split at hc
  all_goals simp only [List.mem_singleton, List.mem_cons, List.not_mem_nil, or_false] at hc
  all_goals first
    | (rcases hc with rfl | rfl <;> rfl)
    | (subst hc; rfl)

theorem stepLibraryItem_calls {env : DeployEnv} {p : DeployParams} :
    ∀ c ∈ (stepLibraryItem env p).calls, callPhase c = 3 := by
  intro c hc
  unfold stepLibraryItem at hc
  dsimp only at hc
  repeat' split at hc
  all_goals first
    | exact stepLibraryItemNoLibrary_calls c hc
    | (simp only [List.mem_singleton, List.mem_cons, List.not_mem_nil, or_false] at hc
       first
       | (rcases hc with rfl | rfl <;> rfl)
       | (subst hc; rfl))

theorem stepFolder_calls {env : DeployEnv} {p : DeployParams} :
    ∀ c ∈ (stepFolder env p).calls, callPhase c = 4 := by
  intro c hc
  unfold stepFolder at hc
  dsimp only at hc
  repeat' split at hc
  all_goals simp only [List.mem_singleton, List.mem_cons, List.not_mem_nil, or_false] at hc
  all_goals first
    | (rcases hc with rfl | rfl <;> rfl)
    | (subst hc; rfl)

theorem stepHost_calls {env : DeployEnv} {p : DeployParams} :
    ∀ c ∈ (stepHost env p).calls, callPhase c = 5 := by
  intro c hc
  unfold stepHost at hc
  dsimp only at hc
  repeat' split at hc
  all_goals simp only [List.mem_singleton, List.mem_cons, List.not_mem_nil, or_false] at hc
  all_goals first
    | (rcases hc with rfl | rfl <;> rfl)
    | (subst hc; rfl)

theorem stepResourcePoolFromCluster_calls {env : DeployEnv} {p : DeployParams} :
    ∀ c ∈ (stepResourcePoolFromCluster env p).calls, callPhase c = 6 := by
  intro c hc
  unfold stepResourcePoolFromCluster at hc
  dsimp only at hc
  repeat' split at hc
  all_goals simp only [List.mem_singleton, List.mem_cons, List.not_mem_nil, or_false] at hc
  all_goals first
    | (rcases hc with rfl | rfl <;> rfl)
    | (subst hc; rfl)

theorem stepResourcePool_calls {env : DeployEnv} {p : DeployParams} :
    ∀ c ∈ (stepResourcePool env p).calls, callPhase c = 6 := by
  intro c hc
  unfold stepResourcePool at hc
  dsimp only at hc
  repeat' split at hc
  all_goals first
    | exact stepResourcePoolFromCluster_calls c hc
    | (simp only [List.mem_singleton, List.mem_cons, List.not_mem_nil, or_false] at hc
       first
       | (rcases hc with rfl | rfl <;> rfl)
       | (subst hc; rfl))

theorem resolveAll_calls_phase {env : DeployEnv} {p : DeployParams} :
    ∀ c ∈ (resolveAll env p).calls, 1 ≤ callPhase c ∧ callPhase c ≤ 6 := by
  intro c hc
  unfold resolveAll at hc
  rcases seqStep_mem hc with h | hc
  · rw [stepDatacenter_calls c h]; omega
  rcases seqStep_mem hc with h | hc
  · rw [stepDatastore_calls c h]; omega
  rcases seqStep_mem hc with h | hc
  · rw [stepLibraryItem_calls c h]; omega
  rcases seqStep_mem hc with h | hc
  · rw [stepFolder_calls c h]; omega
  rcases seqStep_mem hc with h | hc
  · rw [stepHost_calls c h]; omega
  · rw [stepResourcePool_calls c hc]; omega

theorem resolveAll_sorted {env : DeployEnv} {p : DeployParams} :
    List.Sorted (· ≤ ·) ((resolveAll env p).calls.map callPhase) := by
  unfold resolveAll
  refine seqStep_sorted 2 (fun c h => by rw [stepDatacenter_calls c h]; omega)
    ?_ (sorted_of_const stepDatacenter_calls) ?_
  · intro c hc
    rcases seqStep_mem hc with h | hc
    · rw [stepDatastore_calls c h]
    rcases seqStep_mem hc with h | hc
    · rw [stepLibraryItem_calls c h]; omega
    rcases seqStep_mem hc with h | hc
    · rw [stepFolder_calls c h]; omega
    rcases seqStep_mem hc with h | hc
    · rw [stepHost_calls c h]; omega
    · rw [stepResourcePool_calls c hc]; omega
  refine seqStep_sorted 3 (fun c h => by rw [stepDatastore_calls c h]; omega)
    ?_ (sorted_of_const stepDatastore_calls) ?_
  · intro c hc
    rcases seqStep_mem hc with h | hc
    · rw [stepLibraryItem_calls c h]
    rcases seqStep_mem hc with h | hc
    · rw [stepFolder_calls c h]; omega
    rcases seqStep_mem hc with h | hc
    · rw [stepHost_calls c h]; omega
    · rw [stepResourcePool_calls c hc]; omega
  refine seqStep_sorted 4 (fun c h => by rw [stepLibraryItem_calls c h]; omega)
    ?_ (sorted_of_const stepLibraryItem_calls) ?_
  · intro c hc
    rcases seqStep_mem hc with h | hc
    · rw [stepFolder_calls c h]
    rcases seqStep_mem hc with h | hc
    · rw [stepHost_calls c h]; omega
    · rw [stepResourcePool_calls c hc]; omega
  refine seqStep_sorted 5 (fun c h => by rw [stepFolder_calls c h]; omega)
    ?_ (sorted_of_const stepFolder_calls) ?_
  · intro c hc
    rcases seqStep_mem hc with h | hc
    · rw [stepHost_calls c h]
    · rw [stepResourcePool_calls c hc]; omega
  exact seqStep_sorted 6 (fun c h => by rw [stepHost_calls c h]; omega)
    (fun c h => by rw [stepResourcePool_calls c h]) (sorted_of_const stepHost_calls)
    (sorted_of_const stepResourcePool_calls)

theorem deployCallsOf_eq_nil {t : List Call} (h : ∀ c ∈ t, callPhase c ≤ 6) :
    deployCallsOf t = [] := by
  unfold deployCallsOf
  rw [List.filter_eq_nil_iff]
  intro c hc
  have := h c hc
  cases c <;> simp [callPhase] at this ⊢

theorem resolveAll_no_deploy {env : DeployEnv} {p : DeployParams} :
    deployCallsOf (resolveAll env p).calls = [] :=
  deployCallsOf_eq_nil fun c hc => (resolveAll_calls_phase c hc).2

/-! Identifier lemmas: a block that does not fail stores a truthy
identifier, and later blocks do not overwrite it. -/

theorem stepDatacenter_ok {env : DeployEnv} {p : DeployParams}
    (h : (stepDatacenter env p).failed = none) (ids : Ids) :
    truthy ((stepDatacenter env p).upd ids).datacenter_id = true := by
  unfold stepDatacenter at h ⊢
  dsimp only at h ⊢
  repeat' split
  all_goals simp_all

theorem stepDatastore_ok {env : DeployEnv} {p : DeployParams}
    (h : (stepDatastore env p).failed = none) (ids : Ids) :
    truthy ((stepDatastore env p).upd ids).datastore_id = true := by
  unfold stepDatastore stepDatastoreCluster at h ⊢
  dsimp only at h ⊢
  repeat' split
  all_goals simp_all

theorem stepLibraryItem_ok {env : DeployEnv} {p : DeployParams}
    (h : (stepLibraryItem env p).failed = none) (ids : Ids) :
    truthy ((stepLibraryItem env p).upd ids).library_item_id = true := by
  unfold stepLibraryItem stepLibraryItemNoLibrary at h ⊢
  dsimp only at h ⊢
  repeat' split
  all_goals simp_all

theorem stepFolder_ok {env : DeployEnv} {p : DeployParams}
    (h : (stepFolder env p).failed = none) (ids : Ids) :
    truthy ((stepFolder env p).upd ids).folder_id = true := by
  unfold stepFolder at h ⊢
  dsimp only at h ⊢
  repeat' split
  all_goals simp_all

theorem stepResourcePool_ok {env : DeployEnv} {p : DeployParams}
    (h : (stepResourcePool env p).failed = none) (ids : Ids) :
    truthy ((stepResourcePool env p).upd ids).resourcepool_id = true := by
  unfold stepResourcePool stepResourcePoolFromCluster at h ⊢
  dsimp only at h ⊢
  repeat' split
  all_goals simp_all

theorem stepDatastore_pres_dc {env : DeployEnv} {p : DeployParams} {ids : Ids} :
    ((stepDatastore env p).upd ids).datacenter_id = ids.datacenter_id := by
  unfold stepDatastore stepDatastoreCluster
  dsimp only
  repeat' split
  all_goals rfl

theorem stepLibraryItem_pres_dc {env : DeployEnv} {p : DeployParams} {ids : Ids} :
    ((stepLibraryItem env p).upd ids).datacenter_id = ids.datacenter_id := by
  unfold stepLibraryItem stepLibraryItemNoLibrary
  dsimp only
  repeat' split
  all_goals rfl

theorem stepLibraryItem_pres_ds {env : DeployEnv} {p : DeployParams} {ids : Ids} :
    ((stepLibraryItem env p).upd ids).datastore_id = ids.datastore_id := by
  unfold stepLibraryItem stepLibraryItemNoLibrary
  dsimp only
  repeat' split
  all_goals rfl

theorem stepFolder_pres_dc {env : DeployEnv} {p : DeployParams} {ids : Ids} :
    ((stepFolder env p).upd ids).datacenter_id = ids.datacenter_id := by
  unfold stepFolder
  dsimp only
  repeat' split
  all_goals rfl

theorem stepFolder_pres_ds {env : DeployEnv} {p : DeployParams} {ids : Ids} :
    ((stepFolder env p).upd ids).datastore_id = ids.datastore_id := by
  unfold stepFolder
  dsimp only
  repeat' split
  all_goals rfl

theorem stepFolder_pres_li {env : DeployEnv} {p : DeployParams} {ids : Ids} :
    ((stepFolder env p).upd ids).library_item_id = ids.library_item_id := by
  unfold stepFolder
  dsimp only
  repeat' split
  all_goals rfl

theorem stepHost_pres_dc {env : DeployEnv} {p : DeployParams} {ids : Ids} :
    ((stepHost env p).upd ids).datacenter_id = ids.datacenter_id := by
  unfold stepHost
  dsimp only
  repeat' split
  all_goals rfl

theorem stepHost_pres_ds {env : DeployEnv} {p : DeployParams} {ids : Ids} :
    ((stepHost env p).upd ids).datastore_id = ids.datastore_id := by
  unfold stepHost
  dsimp only
  repeat' split
  all_goals rfl

theorem stepHost_pres_li {env : DeployEnv} {p : DeployParams} {ids : Ids} :
    ((stepHost env p).upd ids).library_item_id = ids.library_item_id := by
  unfold stepHost
  dsimp only
  repeat' split
  all_goals rfl

theorem stepHost_pres_folder {env : DeployEnv} {p : DeployParams} {ids : Ids} :
    ((stepHost env p).upd ids).folder_id = ids.folder_id := by
  unfold stepHost
  dsimp only
  repeat' split
  all_goals rfl

theorem stepResourcePool_pres_dc {env : DeployEnv} {p : DeployParams} {ids : Ids} :
    ((stepResourcePool env p).upd ids).datacenter_id = ids.datacenter_id := by
  unfold stepResourcePool stepResourcePoolFromCluster
  dsimp only
  repeat' split
  all_goals rfl

theorem stepResourcePool_pres_ds {env : DeployEnv} {p : DeployParams} {ids : Ids} :
    ((stepResourcePool env p).upd ids).datastore_id = ids.datastore_id := by
  unfold stepResourcePool stepResourcePoolFromCluster
  dsimp only
  repeat' split
  all_goals rfl

theorem stepResourcePool_pres_li {env : DeployEnv} {p : DeployParams} {ids : Ids} :
    ((stepResourcePool env p).upd ids).library_item_id = ids.library_item_id := by
  unfold stepResourcePool stepResourcePoolFromCluster
  dsimp only
  repeat' split
  all_goals rfl

theorem stepResourcePool_pres_folder {env : DeployEnv} {p : DeployParams} {ids : Ids} :
    ((stepResourcePool env p).upd ids).folder_id = ids.folder_id := by
  unfold stepResourcePool stepResourcePoolFromCluster
  dsimp only
  repeat' split
  all_goals rfl

theorem resolveAll_failed_parts {env : DeployEnv} {p : DeployParams}
    (h : (resolveAll env p).failed = none) :
    (stepDatacenter env p).failed = none ∧ (stepDatastore env p).failed = none ∧
    (stepLibraryItem env p).failed = none ∧ (stepFolder env p).failed = none ∧
    (stepHost env p).failed = none ∧ (stepResourcePool env p).failed = none := by
  unfold resolveAll at h
  have h1 := seqStep_failed_none.mp h
  have h2 := seqStep_failed_none.mp h1.2
  have h3 := seqStep_failed_none.mp h2.2
  have h4 := seqStep_failed_none.mp h3.2
  have h5 := seqStep_failed_none.mp h4.2
  exact ⟨h1.1, h2.1, h3.1, h4.1, h5.1, h5.2⟩

theorem resolveAll_upd_eq {env : DeployEnv} {p : DeployParams}
    (h : (resolveAll env p).failed = none) (ids : Ids) :
    (resolveAll env p).upd ids =
      (stepResourcePool env p).upd ((stepHost env p).upd ((stepFolder env p).upd
        ((stepLibraryItem env p).upd ((stepDatastore env p).upd
          ((stepDatacenter env p).upd ids))))) := by
  obtain ⟨f1, f2, f3, f4, f5, _⟩ := resolveAll_failed_parts h
  unfold resolveAll
  rw [seqStep_of_ok f5, seqStep_of_ok f4, seqStep_of_ok f3, seqStep_of_ok f2, seqStep_of_ok f1]

theorem resolveAll_ids_ok {env : DeployEnv} {p : DeployParams}
    (h : (resolveAll env p).failed = none) (ids0 : Ids) :
    truthy ((resolveAll env p).upd ids0).datacenter_id = true ∧
    truthy ((resolveAll env p).upd ids0).datastore_id = true ∧
    truthy ((resolveAll env p).upd ids0).library_item_id = true ∧
    truthy ((resolveAll env p).upd ids0).folder_id = true ∧
    truthy ((resolveAll env p).upd ids0).resourcepool_id = true := by
  obtain ⟨f1, f2, f3, f4, f5, f6⟩ := resolveAll_failed_parts h
  rw [resolveAll_upd_eq h]
  refine ⟨?_, ?_, ?_, ?_, ?_⟩
  · rw [stepResourcePool_pres_dc, stepHost_pres_dc, stepFolder_pres_dc, stepLibraryItem_pres_dc,
      stepDatastore_pres_dc]
    exact stepDatacenter_ok f1 ids0
  · rw [stepResourcePool_pres_ds, stepHost_pres_ds, stepFolder_pres_ds, stepLibraryItem_pres_ds]
    exact stepDatastore_ok f2 _
  · rw [stepResourcePool_pres_li, stepHost_pres_li, stepFolder_pres_li]
    exact stepLibraryItem_ok f3 _
  · rw [stepResourcePool_pres_folder, stepHost_pres_folder]
    exact stepFolder_ok f4 _
  · exact stepResourcePool_ok f6 _

/-! Unfolding lemmas for the two main paths of a deploy-module run. -/

theorem resolveAll_sp {env : DeployEnv} {p : DeployParams} {s : String} :
    resolveAll env { p with storage_provisioning := s } = resolveAll env p := rfl

theorem resolveAll_canon {env : DeployEnv} {p : DeployParams} :
    resolveAll env (canonParams p) = resolveAll env p := rfl

theorem deployStage_calls {env : DeployEnv} {p : DeployParams} {ids : Ids} :
    (deployStage env p ids).2 =
      [Call.ovfFilterCall (strOf ids.library_item_id) (deployTargetOf ids),
       Call.deployCall (strOf ids.library_item_id) (deployTargetOf ids) (deploySpecOf env p ids)] := by
  unfold deployStage
  dsimp only
  repeat' split
  all_goals rfl

theorem runDeployModule_fail {env : DeployEnv} {p : DeployParams} {m : String}
    (hvm : env.get_vm = none) (hres : (resolveAll env p).failed = some m) :
    runDeployModule env p false =
      (.failJson m, (resolveAll env p).upd {},
        Call.getVmCall p.name :: (resolveAll env p).calls) := by
  unfold runDeployModule deploy_vm_from_ovf_template
  rw [hvm]
  dsimp only
  rw [resolveAll_canon, hres]
  rfl

theorem runDeployModule_ok {env : DeployEnv} {p : DeployParams}
    (hvm : env.get_vm = none) (hres : (resolveAll env p).failed = none) :
    runDeployModule env p false =
      ((deployStage env (canonParams p) ((resolveAll env p).upd {})).1,
        (resolveAll env p).upd {},
        Call.getVmCall p.name ::
          ((resolveAll env p).calls ++ (deployStage env (canonParams p) ((resolveAll env p).upd {})).2)) := by
  unfold runDeployModule deploy_vm_from_ovf_template
  rw [hvm]
  dsimp only
  rw [resolveAll_canon, hres]
  rfl

theorem seqStep_failed_of_fail {a b : StepOut} {m : String} (h : a.failed = some m) :
    (seqStep a b).failed = some m := by
  rw [seqStep_of_fail h]
  exact h

theorem seqStep_failed_of_ok {a b : StepOut} (h : a.failed = none) :
    (seqStep a b).failed = b.failed := by
  rw [seqStep_of_ok h]

theorem deployCallsOf_getVm_resolve {env : DeployEnv} {p : DeployParams} {n : String} :
    deployCallsOf (Call.getVmCall n :: (resolveAll env p).calls) = [] := by
  apply deployCallsOf_eq_nil
  intro c hc
  rcases List.mem_cons.mp hc with rfl | h
  · simp [callPhase]
  · exact (resolveAll_calls_phase c h).2

theorem deployCallsOf_ok_trace {env : DeployEnv} {p pc : DeployParams} {n : String} {ids : Ids} :
    deployCallsOf (Call.getVmCall n :: ((resolveAll env p).calls ++ (deployStage env pc ids).2)) =
      [Call.deployCall (strOf ids.library_item_id) (deployTargetOf ids) (deploySpecOf env pc ids)] := by
  have hres0 := @resolveAll_no_deploy env p
  rw [deployStage_calls]
  unfold deployCallsOf at hres0 ⊢
  simp only [List.filter_cons, List.filter_append, hres0]
  rfl

theorem runDeploy_fail_shape {env : DeployEnv} {p : DeployParams} {m : String}
    (hvm : env.get_vm = none) (hres : (resolveAll env p).failed = some m) :
    (runDeployModule env p false).1 = Outcome.failJson m ∧
    deployCallsOf (runDeployModule env p false).2.2 = [] := by
  rw [runDeployModule_fail hvm hres]
  exact ⟨rfl, deployCallsOf_getVm_resolve⟩

theorem get_object_found_calls {env : PermEnv} {q : PermParams} {obj : String}
    {cs : List Call} {ws : List String} (h : get_object env q = ObjResult.found obj cs ws) :
    retrieveCallsOf cs = [] := by
  unfold get_object at h
  repeat' split at h
  all_goals cases h
  all_goals rfl

theorem retrieveCallsOf_append {s t : List Call} :
    retrieveCallsOf (s ++ t) = retrieveCallsOf s ++ retrieveCallsOf t := by
  simp [retrieveCallsOf]

theorem runDeployModule_vm {env : DeployEnv} {p : DeployParams} {cm : Bool} {moid : String}
    (h : env.get_vm = some moid) :
    runDeployModule env p cm =
      (Outcome.exitDeploy false ("Virtual Machine \x27" ++ p.name ++ "\x27 already Exists.") moid,
        ({} : Ids), [Call.getVmCall p.name]) := by
  unfold runDeployModule
  rw [h]
  rfl

theorem runDeployModule_checkMode {env : DeployEnv} {p : DeployParams}
    (h : env.get_vm = none) :
    runDeployModule env p true =
      (Outcome.exitCheckMode p.name, ({} : Ids), [Call.getVmCall p.name]) := by
  unfold runDeployModule
  rw [h]
  rfl

theorem runDeployModule_canon {env : DeployEnv} {p q : DeployParams} {cm : Bool}
    (h : canonParams p = canonParams q) :
    runDeployModule env p cm = runDeployModule env q cm := by
  unfold runDeployModule
  rw [h]

/-! The claims. -/

/-- C8: when a virtual machine with the requested name already exists, the
deploy module exits successfully with changed false, reporting the existing
machine id and a message that it already exists, directly from the
constructor: the trace holds only the VM pre-check, so no name resolution
and no deploy call is performed. -/
theorem c8_existing_vm_short_circuits (env : DeployEnv) (p : DeployParams) (cm : Bool)
    (moid : String) (h : env.get_vm = some moid) :
    runDeployModule env p cm =
      (Outcome.exitDeploy false ("Virtual Machine \x27" ++ p.name ++ "\x27 already Exists.") moid,
        ({} : Ids), [Call.getVmCall p.name]) :=
  runDeployModule_vm h

theorem c8_witness :
    runDeployModule { envUnsucceeded with get_vm := some ("vm-42") } pW false =
      (Outcome.exitDeploy false ("Virtual Machine \x27vm1\x27 already Exists.") ("vm-42"),
        ({} : Ids), [Call.getVmCall ("vm1")]) :=
  c8_existing_vm_short_circuits _ pW false ("vm-42") rfl

/-- C10: the `moid` parameter of the permissions module never influences the
outcome: two runs whose parameters differ only in `moid` produce the same
object resolution and the same full run (outcome, calls and warnings),
because `moid` is parsed into the parameter record but never read. -/
theorem c10_moid_never_read (env : PermEnv) (p : PermParams) (m1 m2 : Option String) :
    get_object env { p with moid := m1 } = get_object env { p with moid := m2 } ∧
    runPermModule env { p with moid := m1 } = runPermModule env { p with moid := m2 } :=
  ⟨rfl, rfl⟩

/-- C9: running the deploy module with storage_provisioning
"eagerzeroedthick" is the same run as with "eagerZeroedThick", and the
storage-provisioning value carried into any emitted deployment spec is the
canonicalized parameter, hence one of thin, thick, eagerZeroedThick
whenever the parameter is among the declared choices. -/
theorem c9_storage_provisioning_canonicalized (env : DeployEnv) (p : DeployParams) (cm : Bool) :
    (runDeployModule env { p with storage_provisioning := "eagerzeroedthick" } cm =
      runDeployModule env { p with storage_provisioning := "eagerZeroedThick" } cm) ∧
    (∀ li t s, Call.deployCall li t s ∈ (runDeployModule env p cm).2.2 →
      s.storage_provisioning = canonicalizeStorageProvisioning p.storage_provisioning ∧
      (p.storage_provisioning ∈ (["thin", "thick", "eagerZeroedThick", "eagerzeroedthick"] : List String) →
        s.storage_provisioning ∈ (["thin", "thick", "eagerZeroedThick"] : List String))) := by
  constructor
  · exact runDeployModule_canon rfl
  · intro li t s hmem
    cases hvm : env.get_vm with
    | some v =>
      rw [runDeployModule_vm hvm] at hmem
      simp at hmem
    | none =>
      cases cm with
      | true =>
        rw [runDeployModule_checkMode hvm] at hmem
        simp at hmem
      | false =>
        cases hres : (resolveAll env p).failed with
        | some m =>
          rw [runDeployModule_fail hvm hres] at hmem
          simp only [List.mem_cons] at hmem
          rcases hmem with h | h
          · exact absurd h (by simp)
          · have h6 := (resolveAll_calls_phase _ h).2
            simp [callPhase] at h6
        | none =>
          rw [runDeployModule_ok hvm hres] at hmem
          rw [deployStage_calls] at hmem
          simp only [List.mem_cons, List.mem_append] at hmem
          rcases hmem with h | h | h | h | h
          · exact absurd h (by simp)
          · have h6 := (resolveAll_calls_phase _ h).2
            simp [callPhase] at h6
          · exact absurd h (by simp)
          · injection h with h1 h2 h3
            subst h3
            constructor
            · rfl
            · intro hm
              show canonicalizeStorageProvisioning p.storage_provisioning ∈ _
              simp only [List.mem_cons, List.not_mem_nil, or_false] at hm
              rcases hm with hsp | hsp | hsp | hsp <;> rw [hsp] <;> decide
          · exact absurd h (by simp)

theorem c9_witness :
    (runDeployModule envSucceeded { pW with storage_provisioning := "eagerzeroedthick" } false =
      runDeployModule envSucceeded { pW with storage_provisioning := "eagerZeroedThick" } false) ∧
    specW.storage_provisioning = canonicalizeStorageProvisioning ("eagerzeroedthick") ∧
    specW.storage_provisioning ∈ (["thin", "thick", "eagerZeroedThick"] : List String) := by
  refine ⟨(c9_storage_provisioning_canonicalized envSucceeded pW false).1, ?_, ?_⟩
  · exact ((c9_storage_provisioning_canonicalized envSucceeded pEz false).2 ("li-1") targetW specW
      (by decide)).1
  · exact ((c9_storage_provisioning_canonicalized envSucceeded pEz false).2 ("li-1") targetW specW
      (by decide)).2 (by decide)

/-- C5: the deploy call is reached only in states where the resolved
datacenter, datastore, library item, folder and resource pool identifiers
are all truthy (neither None nor empty), and each block of the resolution
chain maintains this by failing the run whenever its resolved identifier is
falsy. -/
theorem c5_nonempty_identifier_invariant (env : DeployEnv) (p : DeployParams) (cm : Bool)
    (h : deployCallsOf (runDeployModule env p cm).2.2 ≠ []) :
    (truthy (runDeployModule env p cm).2.1.datacenter_id = true ∧
     truthy (runDeployModule env p cm).2.1.datastore_id = true ∧
     truthy (runDeployModule env p cm).2.1.library_item_id = true ∧
     truthy (runDeployModule env p cm).2.1.folder_id = true ∧
     truthy (runDeployModule env p cm).2.1.resourcepool_id = true) ∧
    ((∀ ids, (stepDatacenter env p).failed = none →
        truthy ((stepDatacenter env p).upd ids).datacenter_id = true) ∧
     (∀ ids, (stepDatastore env p).failed = none →
        truthy ((stepDatastore env p).upd ids).datastore_id = true) ∧
     (∀ ids, (stepLibraryItem env p).failed = none →
        truthy ((stepLibraryItem env p).upd ids).library_item_id = true) ∧
     (∀ ids, (stepFolder env p).failed = none →
        truthy ((stepFolder env p).upd ids).folder_id = true) ∧
     (∀ ids, (stepResourcePool env p).failed = none →
        truthy ((stepResourcePool env p).upd ids).resourcepool_id = true)) := by
  constructor
  · cases hvm : env.get_vm with
    | some v =>
      rw [runDeployModule_vm hvm] at h
      exact absurd rfl h
    | none =>
      cases cm with
      | true =>
        rw [runDeployModule_checkMode hvm] at h
        exact absurd rfl h
      | false =>
        cases hres : (resolveAll env p).failed with
        | some m =>
          rw [runDeployModule_fail hvm hres] at h
          exact absurd deployCallsOf_getVm_resolve h
        | none =>
          rw [runDeployModule_ok hvm hres]
          exact resolveAll_ids_ok hres {}
  · exact ⟨fun ids hf => stepDatacenter_ok hf ids, fun ids hf => stepDatastore_ok hf ids,
      fun ids hf => stepLibraryItem_ok hf ids, fun ids hf => stepFolder_ok hf ids,
      fun ids hf => stepResourcePool_ok hf ids⟩

theorem c5_witness :
    truthy (runDeployModule envSucceeded pW false).2.1.datacenter_id = true ∧
    truthy (runDeployModule envSucceeded pW false).2.1.datastore_id = true ∧
    truthy (runDeployModule envSucceeded pW false).2.1.library_item_id = true ∧
    truthy (runDeployModule envSucceeded pW false).2.1.folder_id = true ∧
    truthy (runDeployModule envSucceeded pW false).2.1.resourcepool_id = true :=
  (c5_nonempty_identifier_invariant envSucceeded pW false (by decide)).1

/-- C4: the remote calls of any deploy-module run occur in pipeline order
(VM pre-check, then datacenter, datastore or datastore cluster, library
item, folder, host, resource pool or cluster, then the filter and deploy
SDK calls), and when the resolver chain fails the run terminates with that
failure and never reaches the SDK-call phase. -/
theorem c4_resolution_order (env : DeployEnv) (p : DeployParams) (cm : Bool) :
    List.Sorted (fun a b => a ≤ b) (((runDeployModule env p cm).2.2).map callPhase) ∧
    (∀ m, env.get_vm = none → (resolveAll env p).failed = some m →
      (runDeployModule env p false).1 = Outcome.failJson m ∧
      ∀ c ∈ (runDeployModule env p false).2.2, callPhase c < 7) := by
  constructor
  · cases hvm : env.get_vm with
    | some v =>
      rw [runDeployModule_vm hvm]
      simp [callPhase]
    | none =>
      cases cm with
      | true =>
        rw [runDeployModule_checkMode hvm]
        simp [callPhase]
      | false =>
        cases hres : (resolveAll env p).failed with
        | some m =>
          rw [runDeployModule_fail hvm hres]
          dsimp only
          rw [List.map_cons, List.sorted_cons]
          refine ⟨?_, resolveAll_sorted⟩
          intro b hb
          obtain ⟨c, hc, rfl⟩ := List.mem_map.mp hb
          simp [callPhase]
        | none =>
          rw [runDeployModule_ok hvm hres]
          dsimp only
          rw [deployStage_calls, List.map_cons, List.sorted_cons]
          constructor
          · intro b hb
            obtain ⟨c, hc, rfl⟩ := List.mem_map.mp hb
            simp [callPhase]
          · rw [List.map_append]
            unfold List.Sorted
            rw [List.pairwise_append]
            refine ⟨resolveAll_sorted, ?_, ?_⟩
            · simp [callPhase, List.sorted_cons]
            · intro a ha b hb
              obtain ⟨c, hc, rfl⟩ := List.mem_map.mp ha
              obtain ⟨d, hd, rfl⟩ := List.mem_map.mp hb
              have h6 := (resolveAll_calls_phase c hc).2
              simp only [List.mem_cons, List.not_mem_nil, or_false] at hd
              rcases hd with rfl | rfl
              · exact le_trans h6 (show (6 : Nat) ≤ 7 by norm_num)
              · exact le_trans h6 (show (6 : Nat) ≤ 8 by norm_num)
  · intro m hvm hres
    refine ⟨(runDeploy_fail_shape hvm hres).1, ?_⟩
    rw [runDeployModule_fail hvm hres]
    intro c hc
    rcases List.mem_cons.mp hc with rfl | hc2
    · simp [callPhase]
    · have h6 := (resolveAll_calls_phase c hc2).2
      omega

theorem c4_witness :
    List.Sorted (fun a b => a ≤ b) (((runDeployModule envSucceeded pW false).2.2).map callPhase) ∧
    (runDeployModule envDcFail pW false).1 = Outcome.failJson ("Failed to find the datacenter dc") :=
  ⟨(c4_resolution_order envSucceeded pW false).1,
    ((c4_resolution_order envDcFail pW false).2 ("Failed to find the datacenter dc") rfl rfl).1⟩

/-- C3: with no existing VM, check mode off, and every resolution
succeeding, the deploy module issues exactly one deploy call, whose
parameters are the resolved library item id, the deployment target built
from the resolved resource pool and folder ids, and the deployment spec
carrying the requested name, the canonicalized storage provisioning,
accept_all_eula true and the resolved datastore id as default datastore. -/
theorem c3_single_deploy_call (env : DeployEnv) (p : DeployParams) (ids : Ids)
    (hvm : env.get_vm = none) (hres : (resolveAll env p).failed = none)
    (hids : ids = (resolveAll env p).upd {}) :
    deployCallsOf (runDeployModule env p false).2.2 =
      [Call.deployCall (strOf ids.library_item_id) (deployTargetOf ids)
        (deploySpecOf env (canonParams p) ids)] ∧
    (deployTargetOf ids).resource_pool_id = strOf ids.resourcepool_id ∧
    (deployTargetOf ids).folder_id = strOf ids.folder_id ∧
    (deploySpecOf env (canonParams p) ids).name = p.name ∧
    (deploySpecOf env (canonParams p) ids).accept_all_eula = true ∧
    (deploySpecOf env (canonParams p) ids).storage_provisioning =
      canonicalizeStorageProvisioning p.storage_provisioning ∧
    (deploySpecOf env (canonParams p) ids).default_datastore_id = strOf ids.datastore_id := by
  subst hids
  refine ⟨?_, rfl, rfl, rfl, rfl, rfl, rfl⟩
  rw [runDeployModule_ok hvm hres]
  exact deployCallsOf_ok_trace

theorem c3_witness :
    deployCallsOf (runDeployModule envSucceeded pW false).2.2 =
      [Call.deployCall (strOf idsW.library_item_id) (deployTargetOf idsW)
        (deploySpecOf envSucceeded (canonParams pW) idsW)] ∧
    (deployTargetOf idsW).resource_pool_id = strOf idsW.resourcepool_id ∧
    (deployTargetOf idsW).folder_id = strOf idsW.folder_id ∧
    (deploySpecOf envSucceeded (canonParams pW) idsW).name = pW.name ∧
    (deploySpecOf envSucceeded (canonParams pW) idsW).accept_all_eula = true ∧
    (deploySpecOf envSucceeded (canonParams pW) idsW).storage_provisioning =
      canonicalizeStorageProvisioning pW.storage_provisioning ∧
    (deploySpecOf envSucceeded (canonParams pW) idsW).default_datastore_id =
      strOf idsW.datastore_id :=
  c3_single_deploy_call envSucceeded pW idsW rfl rfl rfl

/-- C6: every successful run of the permissions module issues exactly one
RetrieveEntityPermissions call, on the resolved object with inherited set to
false, and the run result carries, under the key permissions, exactly that
call result translated by to_json. -/
theorem c6_single_retrieve_call (envP : PermEnv) (q : PermParams) (v : String)
    (h : (runPermModule envP q).1 = Outcome.exitPermissions v) :
    ∃ obj, resolvedObject envP q = some obj ∧
      retrieveCallsOf (runPermModule envP q).2.1 = [Call.retrievePermissionsCall obj false] ∧
      v = envP.to_json (envP.retrieve_entity_permissions obj false) ∧
      resultRecord (runPermModule envP q).1 = [("permissions", ResultValue.vStr v)] := by
  cases hobj : get_object envP q with
  | failure m cs =>
    unfold runPermModule at h
    rw [hobj] at h
    exact absurd h (by simp)
  | found obj cs ws =>
    have hv : v = envP.to_json (envP.retrieve_entity_permissions obj false) := by
      unfold runPermModule at h
      rw [hobj] at h
      dsimp only at h
      injection h with h1
      exact h1.symm
    refine ⟨obj, ?_, ?_, hv, ?_⟩
    · unfold resolvedObject
      rw [hobj]
    · unfold runPermModule
      rw [hobj]
      dsimp only
      rw [retrieveCallsOf_append, get_object_found_calls hobj]
      rfl
    · unfold runPermModule
      rw [hobj]
      dsimp only
      rw [← hv]
      rfl

theorem c6_witness :
    resolvedObject permEnvW qW = some ("obj-1") ∧
    retrieveCallsOf (runPermModule permEnvW qW).2.1 =
      [Call.retrievePermissionsCall ("obj-1") false] ∧
    resultRecord (runPermModule permEnvW qW).1 =
      [("permissions",
        ResultValue.vStr (permEnvW.to_json (permEnvW.retrieve_entity_permissions ("obj-1") false)))] := by
  obtain ⟨obj, h1, h2, h3, h4⟩ :=
    c6_single_retrieve_call permEnvW qW
      (permEnvW.to_json (permEnvW.retrieve_entity_permissions ("obj-1") false)) rfl
  have hobj : obj = "obj-1" :=
    Option.some.inj (h1.symm.trans (show resolvedObject permEnvW qW = some ("obj-1") from rfl))
  subst hobj
  exact ⟨h1, h2, h4⟩

/-- C1 (amended): a failed name lookup and a raised remote error are both
surfaced as a terminal fail_json with a human-readable message, the vendor
error message propagated verbatim through get_error_message; but when the
deploy SDK call returns an unsucceeded result, the module terminates as a
successful run (exit_json with changed false and a generic failure
message), not as a failure. -/
theorem c1_amended_error_surfacing (env : DeployEnv) (p : DeployParams)
    (hvm : env.get_vm = none) :
    (∀ m, (resolveAll env p).failed = some m →
      (runDeployModule env p false).1 = Outcome.failJson m) ∧
    (∀ m, (resolveAll env p).failed = none →
      (∀ li t s, env.deploy li t s = DeployCallResult.error m) →
      (runDeployModule env p false).1 = Outcome.failJson (get_error_message m)) ∧
    (∀ m, (resolveAll env p).failed = none →
      (∀ li t s, env.deploy li t s = DeployCallResult.exn m) →
      (runDeployModule env p false).1 = Outcome.failJson m) ∧
    ((resolveAll env p).failed = none →
      (∀ li t s, ∃ r, env.deploy li t s = DeployCallResult.result false r) →
      (runDeployModule env p false).1 =
        Outcome.exitDeploy false ("Virtual Machine deployment failed") "" ∧
      isFailureOutcome (runDeployModule env p false).1 = false) := by
  refine ⟨fun m hres => (runDeploy_fail_shape hvm hres).1, ?_, ?_, ?_⟩
  · intro m hres hd
    rw [runDeployModule_ok hvm hres]
    dsimp only
    unfold deployStage
    dsimp only
    rw [hd]
  · intro m hres hd
    rw [runDeployModule_ok hvm hres]
    dsimp only
    unfold deployStage
    dsimp only
    rw [hd]
  · intro hres hd
    rw [runDeployModule_ok hvm hres]
    dsimp only
    unfold deployStage
    dsimp only
    obtain ⟨r, hr⟩ := hd (strOf ((resolveAll env p).upd {}).library_item_id)
      (deployTargetOf ((resolveAll env p).upd {}))
      (deploySpecOf env (canonParams p) ((resolveAll env p).upd {}))
    rw [hr]
    exact ⟨rfl, rfl⟩

/-- C1 counterexample: in a run where every resolution succeeds and the
deploy SDK call reports failure by returning a result with succeeded false,
the module terminates successfully (exit_json, changed false) and not as a
failure, contradicting the claim that a reported deploy failure is always a
terminal failure. -/
theorem c1_counterexample :
    (runDeployModule envUnsucceeded pW false).1 =
      Outcome.exitDeploy false ("Virtual Machine deployment failed") "" ∧
    isFailureOutcome (runDeployModule envUnsucceeded pW false).1 = false ∧
    (deployCallsOf (runDeployModule envUnsucceeded pW false).2.2).length = 1 :=
  ⟨rfl, rfl, rfl⟩

theorem c1_witness :
    (runDeployModule envDcFail pW false).1 =
      Outcome.failJson ("Failed to find the datacenter dc") ∧
    (runDeployModule envError pW false).1 =
      Outcome.failJson (get_error_message ("vendor failure")) ∧
    (runDeployModule envExn pW false).1 = Outcome.failJson ("socket closed") ∧
    (runDeployModule envUnsucceeded pW false).1 =
      Outcome.exitDeploy false ("Virtual Machine deployment failed") "" ∧
    isFailureOutcome (runDeployModule envUnsucceeded pW false).1 = false :=
  ⟨(c1_amended_error_surfacing envDcFail pW rfl).1 ("Failed to find the datacenter dc") rfl,
   (c1_amended_error_surfacing envError pW rfl).2.1 ("vendor failure") rfl (fun _ _ _ => rfl),
   (c1_amended_error_surfacing envExn pW rfl).2.2.1 ("socket closed") rfl (fun _ _ _ => rfl),
   ((c1_amended_error_surfacing envUnsucceeded pW rfl).2.2.2 rfl (fun _ _ _ => ⟨"", rfl⟩)).1,
   ((c1_amended_error_surfacing envUnsucceeded pW rfl).2.2.2 rfl (fun _ _ _ => ⟨"", rfl⟩)).2⟩

/-- C7 (amended): each module passes a flat keyword record to exit_json or
fail_json, but not of the shape succeeded/id/message: the deploy module
reports changed plus a nested vm_deploy_info record holding msg and vm_id;
on success vm_deploy_info carries the deployed machine id and a message
naming the VM, and on an unsucceeded deployment an empty id and a generic
failure message with changed false. -/
theorem c7_amended_result_shape (env : DeployEnv) (p : DeployParams)
    (hvm : env.get_vm = none) (hres : (resolveAll env p).failed = none) :
    (∀ rid, (∀ li t s, env.deploy li t s = DeployCallResult.result true rid) →
      (runDeployModule env p false).1 =
        Outcome.exitDeploy true ("Deployed Virtual Machine \x27" ++ p.name ++ "\x27.") rid ∧
      resultRecord (runDeployModule env p false).1 =
        [("changed", ResultValue.vBool true),
         ("vm_deploy_info",
           ResultValue.vInfo ("Deployed Virtual Machine \x27" ++ p.name ++ "\x27.") rid)]) ∧
    ((∀ li t s, ∃ r, env.deploy li t s = DeployCallResult.result false r) →
      resultRecord (runDeployModule env p false).1 =
        [("changed", ResultValue.vBool false),
         ("vm_deploy_info", ResultValue.vInfo ("Virtual Machine deployment failed") "")]) := by
  constructor
  · intro rid hd
    rw [runDeployModule_ok hvm hres]
    dsimp only
    unfold deployStage
    dsimp only
    rw [hd]
    exact ⟨rfl, rfl⟩
  · intro hd
    rw [runDeployModule_ok hvm hres]
    dsimp only
    unfold deployStage
    dsimp only
    obtain ⟨r, hr⟩ := hd (strOf ((resolveAll env p).upd {}).library_item_id)
      (deployTargetOf ((resolveAll env p).upd {}))
      (deploySpecOf env (canonParams p) ((resolveAll env p).upd {}))
    rw [hr]
    rfl

/-- C7 counterexample: the result record of a successful deployment run has
the keys changed and vm_deploy_info (the latter a nested record), not the
flat succeeded/id/message shape the claim states. -/
theorem c7_counterexample :
    resultRecord (runDeployModule envSucceeded pW false).1 =
      [("changed", ResultValue.vBool true),
       ("vm_deploy_info", ResultValue.vInfo ("Deployed Virtual Machine \x27vm1\x27.") ("vm-9"))] ∧
    (((resultRecord (runDeployModule envSucceeded pW false).1).map Prod.fst).contains
      ("succeeded")) = false ∧
    (((resultRecord (runDeployModule envSucceeded pW false).1).map Prod.fst).contains
      ("id")) = false ∧
    (((resultRecord (runDeployModule envSucceeded pW false).1).map Prod.fst).contains
      ("message")) = false ∧
    ((resultRecord (runDeployModule envSucceeded pW false).1).map Prod.fst ≠
      (specFlatReport true ("vm-9") ("Deployed Virtual Machine \x27vm1\x27.")).map Prod.fst) :=
  ⟨rfl, rfl, rfl, rfl, by decide⟩

theorem c7_witness :
    (runDeployModule envSucceeded pW false).1 =
      Outcome.exitDeploy true ("Deployed Virtual Machine \x27vm1\x27.") ("vm-9") ∧
    resultRecord (runDeployModule envSucceeded pW false).1 =
      [("changed", ResultValue.vBool true),
       ("vm_deploy_info", ResultValue.vInfo ("Deployed Virtual Machine \x27vm1\x27.") ("vm-9"))] ∧
    resultRecord (runDeployModule envUnsucceeded pW false).1 =
      [("changed", ResultValue.vBool false),
       ("vm_deploy_info", ResultValue.vInfo ("Virtual Machine deployment failed") "")] :=
  ⟨((c7_amended_result_shape envSucceeded pW rfl rfl).1 ("vm-9") (fun _ _ _ => rfl)).1,
   ((c7_amended_result_shape envSucceeded pW rfl rfl).1 ("vm-9") (fun _ _ _ => rfl)).2,
   (c7_amended_result_shape envUnsucceeded pW rfl rfl).2 (fun _ _ _ => ⟨"", rfl⟩)⟩

theorem resolveAll_failed_at1 {env : DeployEnv} {p : DeployParams} {m : String}
    (h : (stepDatacenter env p).failed = some m) :
    (resolveAll env p).failed = some m := by
  unfold resolveAll
  exact seqStep_failed_of_fail h

theorem resolveAll_failed_at2 {env : DeployEnv} {p : DeployParams} {m : String}
    (f1 : (stepDatacenter env p).failed = none)
    (h : (stepDatastore env p).failed = some m) :
    (resolveAll env p).failed = some m := by
  unfold resolveAll
  rw [seqStep_failed_of_ok f1]
  exact seqStep_failed_of_fail h

theorem resolveAll_failed_at3 {env : DeployEnv} {p : DeployParams} {m : String}
    (f1 : (stepDatacenter env p).failed = none)
    (f2 : (stepDatastore env p).failed = none)
    (h : (stepLibraryItem env p).failed = some m) :
    (resolveAll env p).failed = some m := by
  unfold resolveAll
  rw [seqStep_failed_of_ok f1, seqStep_failed_of_ok f2]
  exact seqStep_failed_of_fail h

theorem resolveAll_failed_at4 {env : DeployEnv} {p : DeployParams} {m : String}
    (f1 : (stepDatacenter env p).failed = none)
    (f2 : (stepDatastore env p).failed = none)
    (f3 : (stepLibraryItem env p).failed = none)
    (h : (stepFolder env p).failed = some m) :
    (resolveAll env p).failed = some m := by
  unfold resolveAll
  rw [seqStep_failed_of_ok f1, seqStep_failed_of_ok f2, seqStep_failed_of_ok f3]
  exact seqStep_failed_of_fail h

theorem resolveAll_failed_at5 {env : DeployEnv} {p : DeployParams} {m : String}
    (f1 : (stepDatacenter env p).failed = none)
    (f2 : (stepDatastore env p).failed = none)
    (f3 : (stepLibraryItem env p).failed = none)
    (f4 : (stepFolder env p).failed = none)
    (h : (stepHost env p).failed = some m) :
    (resolveAll env p).failed = some m := by
  unfold resolveAll
  rw [seqStep_failed_of_ok f1, seqStep_failed_of_ok f2, seqStep_failed_of_ok f3,
    seqStep_failed_of_ok f4]
  exact seqStep_failed_of_fail h

theorem resolveAll_failed_at6 {env : DeployEnv} {p : DeployParams} {m : String}
    (f1 : (stepDatacenter env p).failed = none)
    (f2 : (stepDatastore env p).failed = none)
    (f3 : (stepLibraryItem env p).failed = none)
    (f4 : (stepFolder env p).failed = none)
    (f5 : (stepHost env p).failed = none)
    (h : (stepResourcePool env p).failed = some m) :
    (resolveAll env p).failed = some m := by
  unfold resolveAll
  rw [seqStep_failed_of_ok f1, seqStep_failed_of_ok f2, seqStep_failed_of_ok f3,
    seqStep_failed_of_ok f4, seqStep_failed_of_ok f5]
  exact h

/-- C2: whenever a name-to-ID lookup of either module returns nothing
(datacenter, datastore, datastore cluster, library item with or without a
content library, folder, host, resource pool or cluster in the deploy
module; the target object in the permissions module), the run terminates at
once with a fail_json whose message names the missing object, and the
deploy or permission-retrieval call is never issued. -/
theorem c2_lookup_failure_fails_fast (env : DeployEnv) (p : DeployParams)
    (envP : PermEnv) (q : PermParams) (hvm : env.get_vm = none) :
    (truthy (env.get_datacenter_by_name p.datacenter) = false →
      (runDeployModule env p false).1 =
        Outcome.failJson ("Failed to find the datacenter " ++ p.datacenter) ∧
      deployCallsOf (runDeployModule env p false).2.2 = []) ∧
    (∀ ds, truthy (env.get_datacenter_by_name p.datacenter) = true →
      p.datastore = some ds → (ds == "") = false →
      truthy (env.get_datastore_by_name p.datacenter ds) = false →
      (runDeployModule env p false).1 =
        Outcome.failJson ("Failed to find the datastore " ++ ds) ∧
      deployCallsOf (runDeployModule env p false).2.2 = []) ∧
    (∀ dsc, truthy (env.get_datacenter_by_name p.datacenter) = true →
      truthy p.datastore = false → p.datastore_cluster = some dsc → (dsc == "") = false →
      env.find_datastore_cluster_by_name dsc = none →
      (runDeployModule env p false).1 =
        Outcome.failJson ("Failed to find the datastore cluster " ++ dsc) ∧
      deployCallsOf (runDeployModule env p false).2.2 = []) ∧
    (∀ lib, (stepDatacenter env p).failed = none → (stepDatastore env p).failed = none →
      p.library = some lib → (lib == "") = false →
      truthy (env.get_library_item_from_content_library_name p.template lib) = false →
      (runDeployModule env p false).1 =
        Outcome.failJson
          ("Failed to find the library Item " ++ p.template ++ " in content library " ++ lib) ∧
      deployCallsOf (runDeployModule env p false).2.2 = []) ∧
    ((stepDatacenter env p).failed = none → (stepDatastore env p).failed = none →
      truthy p.library = false →
      truthy (env.get_library_item_by_name p.template) = false →
      (runDeployModule env p false).1 =
        Outcome.failJson ("Failed to find the library Item " ++ p.template) ∧
      deployCallsOf (runDeployModule env p false).2.2 = []) ∧
    ((stepDatacenter env p).failed = none → (stepDatastore env p).failed = none →
      (stepLibraryItem env p).failed = none →
      truthy (env.get_folder_by_name p.datacenter p.folder) = false →
      (runDeployModule env p false).1 =
        Outcome.failJson ("Failed to find the folder " ++ p.folder) ∧
      deployCallsOf (runDeployModule env p false).2.2 = []) ∧
    (∀ hst, (stepDatacenter env p).failed = none → (stepDatastore env p).failed = none →
      (stepLibraryItem env p).failed = none → (stepFolder env p).failed = none →
      p.host = some hst → (hst == "") = false →
      truthy (env.get_host_by_name p.datacenter hst) = false →
      (runDeployModule env p false).1 = Outcome.failJson ("Failed to find the Host " ++ hst) ∧
      deployCallsOf (runDeployModule env p false).2.2 = []) ∧
    (∀ rp, (stepDatacenter env p).failed = none → (stepDatastore env p).failed = none →
      (stepLibraryItem env p).failed = none → (stepFolder env p).failed = none →
      (stepHost env p).failed = none →
      p.resource_pool = some rp → (rp == "") = false →
      truthy (env.get_resource_pool_by_name p.datacenter rp p.cluster p.host) = false →
      (runDeployModule env p false).1 =
        Outcome.failJson ("Failed to find the resource_pool " ++ rp) ∧
      deployCallsOf (runDeployModule env p false).2.2 = []) ∧
    (∀ cl, (stepDatacenter env p).failed = none → (stepDatastore env p).failed = none →
      (stepLibraryItem env p).failed = none → (stepFolder env p).failed = none →
      (stepHost env p).failed = none →
      truthy p.resource_pool = false →
      p.cluster = some cl → (cl == "") = false →
      truthy (env.get_cluster_by_name p.datacenter cl) = false →
      (runDeployModule env p false).1 = Outcome.failJson ("Failed to find the Cluster " ++ cl) ∧
      deployCallsOf (runDeployModule env p false).2.2 = []) ∧
    ((q.object_type == "Folder" && q.object_name == some ("rootFolder")) = false →
      envP.vim_has_type q.object_type = true →
      envP.find_obj q.object_type q.object_name = none →
      (runPermModule envP q).1 =
        Outcome.failJson ("Specified object " ++ pyNone q.object_name ++ " of type "
          ++ q.object_type ++ " was not found.") ∧
      retrieveCallsOf (runPermModule envP q).2.1 = []) := by
  refine ⟨?_, ?_, ?_, ?_, ?_, ?_, ?_, ?_, ?_, ?_⟩
  · intro hdc
    have h1 : (stepDatacenter env p).failed =
        some ("Failed to find the datacenter " ++ p.datacenter) := by
      unfold stepDatacenter
      dsimp only
      simp [hdc]
    exact runDeploy_fail_shape hvm (resolveAll_failed_at1 h1)
  · intro ds hdc hds hdsne hlook
    have f1 : (stepDatacenter env p).failed = none := by
      unfold stepDatacenter
      dsimp only
      simp [hdc]
    have h2 : (stepDatastore env p).failed =
        some ("Failed to find the datastore " ++ ds) := by
      unfold stepDatastore
      dsimp only
      rw [hds]
      dsimp only
      simp [hdsne, hlook]
    exact runDeploy_fail_shape hvm (resolveAll_failed_at2 f1 h2)
  · intro dsc hdc hds0 hdsc hdscne hfind
    have f1 : (stepDatacenter env p).failed = none := by
      unfold stepDatacenter
      dsimp only
      simp [hdc]
    have h2 : (stepDatastore env p).failed =
        some ("Failed to find the datastore cluster " ++ dsc) := by
      unfold stepDatastore stepDatastoreCluster
      dsimp only
      cases hd : p.datastore with
      | none =>
        rw [hdsc]
        simp [hdscne, hfind]
      | some ds =>
        have he : (ds == "") = true := by
          rw [hd] at hds0
          simpa [truthy] using hds0
        rw [hdsc]
        simp [he, hdscne, hfind]
    exact runDeploy_fail_shape hvm (resolveAll_failed_at2 f1 h2)
  · intro lib f1 f2 hlib hlibne hlook
    have h3 : (stepLibraryItem env p).failed =
        some ("Failed to find the library Item " ++ p.template
          ++ " in content library " ++ lib) := by
      unfold stepLibraryItem
      dsimp only
      rw [hlib]
      dsimp only
      simp [hlibne, hlook]
    exact runDeploy_fail_shape hvm (resolveAll_failed_at3 f1 f2 h3)
  · intro f1 f2 hlib0 hlook
    have h3 : (stepLibraryItem env p).failed =
        some ("Failed to find the library Item " ++ p.template) := by
      unfold stepLibraryItem stepLibraryItemNoLibrary
      dsimp only
      cases hl : p.library with
      | none => simp [hlook]
      | some lib =>
        have he : (lib == "") = true := by
          rw [hl] at hlib0
          simpa [truthy] using hlib0
        simp [he, hlook]
    exact runDeploy_fail_shape hvm (resolveAll_failed_at3 f1 f2 h3)
  · intro f1 f2 f3 hlook
    have h4 : (stepFolder env p).failed =
        some ("Failed to find the folder " ++ p.folder) := by
      unfold stepFolder
      dsimp only
      simp [hlook]
    exact runDeploy_fail_shape hvm (resolveAll_failed_at4 f1 f2 f3 h4)
  · intro hst f1 f2 f3 f4 hh hne hlook
    have h5 : (stepHost env p).failed = some ("Failed to find the Host " ++ hst) := by
      unfold stepHost
      dsimp only
      rw [hh]
      dsimp only
      simp [hne, hlook]
    exact runDeploy_fail_shape hvm (resolveAll_failed_at5 f1 f2 f3 f4 h5)
  · intro rp f1 f2 f3 f4 f5 hr hne hlook
    have h6 : (stepResourcePool env p).failed =
        some ("Failed to find the resource_pool " ++ rp) := by
      unfold stepResourcePool
      dsimp only
      rw [hr]
      dsimp only
      simp [hne, hlook]
    exact runDeploy_fail_shape hvm (resolveAll_failed_at6 f1 f2 f3 f4 f5 h6)
  · intro cl f1 f2 f3 f4 f5 hrp0 hcl hclne hlook
    have h6 : (stepResourcePool env p).failed =
        some ("Failed to find the Cluster " ++ cl) := by
      unfold stepResourcePool stepResourcePoolFromCluster
      dsimp only
      cases hr : p.resource_pool with
      | none =>
        rw [hcl]
        simp [hclne, hlook]
      | some rp =>
        have he : (rp == "") = true := by
          rw [hr] at hrp0
          simpa [truthy] using hrp0
        rw [hcl]
        simp [he, hclne, hlook]
    exact runDeploy_fail_shape hvm (resolveAll_failed_at6 f1 f2 f3 f4 f5 h6)
  · intro hroot htype hfind
    have hobj : get_object envP q =
        ObjResult.failure
          ("Specified object " ++ pyNone q.object_name ++ " of type "
            ++ q.object_type ++ " was not found.")
          [Call.findObjCall q.object_type q.object_name] := by
      unfold get_object
      rw [hfind]
      simp [hroot, htype]
    constructor
    · unfold runPermModule
      rw [hobj]
    · unfold runPermModule
      rw [hobj]
      rfl

theorem c2_witness :
    ((runDeployModule envDcFail pW false).1 =
        Outcome.failJson ("Failed to find the datacenter dc") ∧
      deployCallsOf (runDeployModule envDcFail pW false).2.2 = []) ∧
    ((runDeployModule envDsFail pW false).1 =
        Outcome.failJson ("Failed to find the datastore ds") ∧
      deployCallsOf (runDeployModule envDsFail pW false).2.2 = []) ∧
    ((runDeployModule envUnsucceeded pDsc false).1 =
        Outcome.failJson ("Failed to find the datastore cluster dsc") ∧
      deployCallsOf (runDeployModule envUnsucceeded pDsc false).2.2 = []) ∧
    ((runDeployModule envUnsucceeded pLib false).1 =
        Outcome.failJson ("Failed to find the library Item tpl in content library lib") ∧
      deployCallsOf (runDeployModule envUnsucceeded pLib false).2.2 = []) ∧
    ((runDeployModule envLiFail pW false).1 =
        Outcome.failJson ("Failed to find the library Item tpl") ∧
      deployCallsOf (runDeployModule envLiFail pW false).2.2 = []) ∧
    ((runDeployModule envFolderFail pW false).1 =
        Outcome.failJson ("Failed to find the folder vm") ∧
      deployCallsOf (runDeployModule envFolderFail pW false).2.2 = []) ∧
    ((runDeployModule envUnsucceeded pHost false).1 =
        Outcome.failJson ("Failed to find the Host h1") ∧
      deployCallsOf (runDeployModule envUnsucceeded pHost false).2.2 = []) ∧
    ((runDeployModule envRpFail pW false).1 =
        Outcome.failJson ("Failed to find the resource_pool rp") ∧
      deployCallsOf (runDeployModule envRpFail pW false).2.2 = []) ∧
    ((runDeployModule envUnsucceeded pCluster false).1 =
        Outcome.failJson ("Failed to find the Cluster cl") ∧
      deployCallsOf (runDeployModule envUnsucceeded pCluster false).2.2 = []) ∧
    ((runPermModule permEnvMissing qW).1 =
        Outcome.failJson ("Specified object vmfolder of type Folder was not found.") ∧
      retrieveCallsOf (runPermModule permEnvMissing qW).2.1 = []) :=
  ⟨(c2_lookup_failure_fails_fast envDcFail pW permEnvW qW rfl).1 rfl,
   (c2_lookup_failure_fails_fast envDsFail pW permEnvW qW rfl).2.1 ("ds") rfl rfl rfl rfl,
   (c2_lookup_failure_fails_fast envUnsucceeded pDsc permEnvW qW rfl).2.2.1
     ("dsc") rfl rfl rfl rfl rfl,
   (c2_lookup_failure_fails_fast envUnsucceeded pLib permEnvW qW rfl).2.2.2.1
     ("lib") rfl rfl rfl rfl rfl,
   (c2_lookup_failure_fails_fast envLiFail pW permEnvW qW rfl).2.2.2.2.1 rfl rfl rfl rfl,
   (c2_lookup_failure_fails_fast envFolderFail pW permEnvW qW rfl).2.2.2.2.2.1 rfl rfl rfl rfl,
   (c2_lookup_failure_fails_fast envUnsucceeded pHost permEnvW qW rfl).2.2.2.2.2.2.1
     ("h1") rfl rfl rfl rfl rfl rfl rfl,
   (c2_lookup_failure_fails_fast envRpFail pW permEnvW qW rfl).2.2.2.2.2.2.2.1
     ("rp") rfl rfl rfl rfl rfl rfl rfl rfl,
   (c2_lookup_failure_fails_fast envUnsucceeded pCluster permEnvW qW rfl).2.2.2.2.2.2.2.2.1
     ("cl") rfl rfl rfl rfl rfl rfl rfl rfl rfl,
   (c2_lookup_failure_fails_fast envUnsucceeded pW permEnvMissing qW rfl).2.2.2.2.2.2.2.2.2
     rfl rfl rfl⟩

end VmwareModules
